import Mathlib

/-!
# Otter Browser: the transfers tool-bar widget

A shallow embedding of `src/modules/widgets/transfers/TransfersWidget.cpp`.

* A `Transfer*` is a `TransferPtr`; the object behind it is read through
  `TransfersManager.deref`, so every accessor call (`getState()`,
  `getBytesTotal()`, ...) sees the transfer as it is when the call is made.
* The actions of the popup `QMenu` are a `List QAction`, in the order of
  `QMenu::actions()`.
* Commands sent to collaborators (`restart()`, `cancel()`, `openTarget()`,
  `Utils::runApplication`) are collected in a `List Command`.
* `qint64` byte counts are `Int`. The only arithmetic on them whose result is
  used is the percentage, which is taken over `ℚ` and floored to an `int`.
* A `QProgressBar` is its range, value and format, changed by `setRange`,
  `setValue` and `setFormat` as Qt defines them.
-/

namespace Otter

/-- Modelled from the spec: the enumeration `Transfer::TransferState`, declared in
`core/TransfersManager.h`. The source file names `UnknownState`, `CancelledState`,
`ErrorState`, `FinishedState` and `RunningState`; the spec lists a queued state as well. -/
inductive TransferState
  | UnknownState
  | QueuedState
  | CancelledState
  | ErrorState
  | FinishedState
  | RunningState
  deriving DecidableEq, Repr

/-- The address of a `Transfer` object. -/
abbrev TransferPtr := Nat

/-- What the accessors of a `Transfer` return at a given moment. -/
structure Transfer where
  isArchived : Bool
  state : TransferState
  bytesTotal : Int
  bytesReceived : Int
  target : String
  deriving DecidableEq, Repr

/-- The part of `TransfersManager` the widget reads: `getTransfers()` and the
transfer objects the pointers lead to. -/
structure TransfersManager where
  transfers : List TransferPtr
  deref : TransferPtr → Transfer

/-- Commands the widgets send to their collaborators. -/
inductive Command
  | restart (transfer : TransferPtr)
  | cancel (transfer : TransferPtr)
  | openTarget (transfer : TransferPtr)
  /-- The call `Utils::runApplication({}, QUrl::fromLocalFile(QFileInfo(target).dir().canonicalPath()))`:
  the folder that contains `target` is opened. -/
  | openContainingFolder (target : String)
  deriving DecidableEq, Repr

/-- The enumeration `Qt::MouseButton`, as far as the handlers tell the buttons apart. -/
inductive MouseButton
  | NoButton
  | LeftButton
  | RightButton
  | MiddleButton
  deriving DecidableEq, Repr

/-- A `QMouseEvent`: the button and the accepted flag. -/
structure QMouseEvent where
  button : MouseButton
  accepted : Bool
  deriving DecidableEq, Repr

/-- The method `QEvent::accept()`. -/
def QMouseEvent.accept (event : QMouseEvent) : QMouseEvent :=
  { event with accepted := true }

/-- Modelled from the spec: `Utils::calculatePercent`, defined in `core/Utils.cpp`:
"percent = received/total", expressed in percent. The quotient is taken in exact
arithmetic; the rounding of `qreal` is not part of the model. -/
def Utils.calculatePercent (amount total : Int) : ℚ :=
  ((amount : ℚ) / (total : ℚ)) * 100

/-- The least value of a 32-bit `int`. -/
def INT_MIN : Int := -2147483648

/-- The greatest value of a 32-bit `int`. -/
def INT_MAX : Int := 2147483647

/-- The function `qFloor` of `QtMath`, `int(floor(v))`: the largest integer not above the
argument, as an `int`. The conversion of a floor outside the range of `int` is undefined
in C++; the model takes what the conversion instruction of x86-64 yields, `INT_MIN`. -/
def qFloor (v : ℚ) : Int :=
  if INT_MIN ≤ Int.floor v ∧ Int.floor v ≤ INT_MAX then Int.floor v else INT_MIN

/-- The state of a `QProgressBar`: its range, its value and its format. -/
structure QProgressBar where
  minimum : Int
  maximum : Int
  value : Int
  format : String
  deriving DecidableEq, Repr

/-- A newly constructed `QProgressBar`: range 0..100, value -1, format `%p%`. -/
def QProgressBar.fresh : QProgressBar :=
  { minimum := 0, maximum := 100, value := -1, format := "%p%" }

/-- The method `QProgressBar::reset()`: the value goes to one below the minimum. -/
def QProgressBar.reset (bar : QProgressBar) : QProgressBar :=
  if bar.minimum = INT_MIN then { bar with value := INT_MIN }
  else { bar with value := bar.minimum - 1 }

/-- The method `QProgressBar::setRange(minimum, maximum)`: a new range is stored, the
maximum raised to the minimum if below it, and a value that no longer fits is reset. -/
def QProgressBar.setRange (bar : QProgressBar) (minimum maximum : Int) : QProgressBar :=
  if minimum ≠ bar.minimum ∨ maximum ≠ bar.maximum then
    let bar := { bar with minimum := minimum, maximum := max minimum maximum }
    if bar.value < bar.minimum - 1 ∨ bar.value > bar.maximum then bar.reset else bar
  else
    bar

/-- The method `QProgressBar::setValue(value)`: a value equal to the current one, or
outside the range while the range is not 0..0, is ignored. -/
def QProgressBar.setValue (bar : QProgressBar) (value : Int) : QProgressBar :=
  if bar.value = value
      ∨ ((value > bar.maximum ∨ value < bar.minimum)
          ∧ (bar.maximum ≠ 0 ∨ bar.minimum ≠ 0)) then
    bar
  else
    { bar with value := value }

/-- The method `QProgressBar::setFormat(format)`. -/
def QProgressBar.setFormat (bar : QProgressBar) (format : String) : QProgressBar :=
  { bar with format := format }

/-- A `TransferActionWidget`: the transfer it shows, the arguments `updateState` last
passed to `setRange`, `setValue` and `setFormat` of its progress bar, the icon and the tool
tip of its tool button, and the progress bar itself. The file name label and the MIME icon
are left out: they are computed by Qt from the target and the MIME type only. -/
structure TransferActionWidget where
  m_transfer : TransferPtr
  progressMinimum : Int
  progressMaximum : Int
  progressValue : Int
  progressFormat : String
  toolButtonIcon : String
  toolButtonToolTip : String
  m_progressBar : QProgressBar
  deriving DecidableEq, Repr

/-- The argument of `m_progressBar->setValue(...)` in `TransferActionWidget::updateState`. -/
def TransferActionWidget.progressValueExpr (isIndeterminate hasError : Bool)
    (bytesReceived bytesTotal : Int) : Int :=
  if isIndeterminate then (if hasError then 0 else -1)
  else (if bytesTotal > 0 then qFloor (Utils.calculatePercent bytesReceived bytesTotal) else -1)

/-- The method `TransferActionWidget::updateState`. -/
def TransferActionWidget.updateState (manager : TransfersManager)
    (widget : TransferActionWidget) : TransferActionWidget :=
  let transfer := manager.deref widget.m_transfer
  let isIndeterminate : Bool := decide (transfer.bytesTotal ≤ 0)
  let hasError : Bool :=
    transfer.state == TransferState.UnknownState || transfer.state == TransferState.ErrorState
  let widget := { widget with
    progressMinimum := 0
    progressMaximum := if isIndeterminate && !hasError then 0 else 100
    m_progressBar :=
      widget.m_progressBar.setRange 0 (if isIndeterminate && !hasError then 0 else 100) }
  let widget := { widget with
    progressValue :=
      TransferActionWidget.progressValueExpr isIndeterminate hasError
        transfer.bytesReceived transfer.bytesTotal
    m_progressBar :=
      widget.m_progressBar.setValue
        (TransferActionWidget.progressValueExpr isIndeterminate hasError
          transfer.bytesReceived transfer.bytesTotal) }
  let widget := { widget with
    progressFormat := if isIndeterminate then "Unknown" else "%p%"
    m_progressBar :=
      widget.m_progressBar.setFormat (if isIndeterminate then "Unknown" else "%p%") }
  match transfer.state with
  | TransferState.CancelledState | TransferState.ErrorState =>
      { widget with toolButtonIcon := "view-refresh", toolButtonToolTip := "Redownload" }
  | TransferState.FinishedState =>
      { widget with toolButtonIcon := "document-open-folder", toolButtonToolTip := "Open Folder" }
  | _ =>
      { widget with toolButtonIcon := "task-reject", toolButtonToolTip := "Cancel" }

/-- The constructor `TransferActionWidget::TransferActionWidget`: stores the
pointer, makes a new progress bar and a new tool button, without icon and tool tip,
and calls `updateState()`. -/
def TransferActionWidget.new (manager : TransfersManager) (transfer : TransferPtr) :
    TransferActionWidget :=
  TransferActionWidget.updateState manager
    { m_transfer := transfer
      progressMinimum := 0
      progressMaximum := 100
      progressValue := -1
      progressFormat := "%p%"
      toolButtonIcon := ""
      toolButtonToolTip := ""
      m_progressBar := QProgressBar.fresh }

/-- The lambda connected to `QToolButton::clicked` in the constructor: the
commands one click issues. -/
def TransferActionWidget.clicked (manager : TransfersManager)
    (widget : TransferActionWidget) : List Command :=
  match (manager.deref widget.m_transfer).state with
  | TransferState.CancelledState | TransferState.ErrorState =>
      [Command.restart widget.m_transfer]
  | TransferState.FinishedState =>
      [Command.openContainingFolder (manager.deref widget.m_transfer).target]
  | _ =>
      [Command.cancel widget.m_transfer]

/-- The handler `TransferActionWidget::mousePressEvent`: the event afterwards and the commands issued. -/
def TransferActionWidget.mousePressEvent (_widget : TransferActionWidget)
    (event : QMouseEvent) : QMouseEvent × List Command :=
  (event.accept, [])

/-- The handler `TransferActionWidget::mouseReleaseEvent`: the event afterwards and the commands issued. -/
def TransferActionWidget.mouseReleaseEvent (widget : TransferActionWidget)
    (event : QMouseEvent) : QMouseEvent × List Command :=
  let event := event.accept
  if event.button = MouseButton.LeftButton then
    (event, [Command.openTarget widget.m_transfer])
  else
    (event, [])

/-- The getter `TransferActionWidget::getTransfer`. -/
def TransferActionWidget.getTransfer (widget : TransferActionWidget) : TransferPtr :=
  widget.m_transfer

/-- An action of the popup menu: a `QWidgetAction` whose default widget is a
`TransferActionWidget`, a separator, or the `Action` built for
`ActionsManager::TransfersAction` with the given text. -/
inductive QAction
  | widgetAction (defaultWidget : TransferActionWidget)
  | separator
  | transfersAction (text : String)
  deriving DecidableEq, Repr

/-- The action `new Action(ActionsManager::TransfersAction, ..., "Show all Downloads", ...)`. -/
def showAllDownloads : QAction :=
  QAction.transfersAction "Show all Downloads"

/-- The method `QMenu::addAction(action)`: the action is appended. -/
def QMenu.addAction (menu : List QAction) (action : QAction) : List QAction :=
  menu ++ [action]

/-- The method `QMenu::addSeparator()`: a separator is appended. -/
def QMenu.addSeparator (menu : List QAction) : List QAction :=
  menu ++ [QAction.separator]

/-- Insertion of `action` at position `pos`, or at the end when `pos` is past it. -/
def QMenu.insertAt (action : QAction) : Nat → List QAction → List QAction
  | 0, menu => action :: menu
  | _ + 1, [] => [action]
  | pos + 1, first :: rest => first :: QMenu.insertAt action pos rest

/-- The method `QMenu::insertAction(before, action)`. The action `before` is given by
its position in the menu, `none` standing for `nullptr`: the new action goes right
before it, or to the end when `before` is `nullptr`. -/
def QMenu.insertAction (menu : List QAction) (before : Option Nat) (action : QAction) :
    List QAction :=
  match before with
  | some pos => QMenu.insertAt action pos menu
  | none => menu ++ [action]

/-- The method `QMenu::insertSeparator(before)`. -/
def QMenu.insertSeparator (menu : List QAction) (before : Option Nat) : List QAction :=
  QMenu.insertAction menu before QAction.separator

/-- The method `QMenu::removeAction(action)`, the action given by its position;
`removeAction(nullptr)` does nothing. -/
def QMenu.removeAction (menu : List QAction) (action : Option Nat) : List QAction :=
  match action with
  | some pos => menu.eraseIdx pos
  | none => menu

/-- The call `actions.value(i)`: the action at position `i`, `nullptr` when there is none. -/
def QMenu.value (actions : List QAction) (i : Nat) : Option Nat :=
  if i < actions.length then some i else none

/-- The tool-bar button: its icon, its tool tip, and its popup menu. -/
structure TransfersWidget where
  m_icon : String
  icon : String
  toolTip : String
  menu : List QAction
  menuVisible : Bool
  deriving DecidableEq, Repr

/-- The getter `TransfersWidget::getIcon`. -/
def TransfersWidget.getIcon (widget : TransfersWidget) : String :=
  widget.m_icon

/-- The loop of `TransfersWidget::updateState`: the running transfers with a known
total are summed up as `(bytesTotal, bytesReceived, transferAmount)`, without overflow. -/
def TransfersWidget.updateStateLoop (manager : TransfersManager) :
    List TransferPtr → Int × Int × Int → Int × Int × Int
  | [], sums => sums
  | transfer :: rest, (bytesTotal, bytesReceived, transferAmount) =>
      if (manager.deref transfer).state = TransferState.RunningState
          ∧ (manager.deref transfer).bytesTotal > 0 then
        TransfersWidget.updateStateLoop manager rest
          (bytesTotal + (manager.deref transfer).bytesTotal,
           bytesReceived + (manager.deref transfer).bytesReceived,
           transferAmount + 1)
      else
        TransfersWidget.updateStateLoop manager rest (bytesTotal, bytesReceived, transferAmount)

/-- The method `TransfersWidget::updateState`: the sums are computed, then
`setIcon(getIcon())` is called. -/
def TransfersWidget.updateState (manager : TransfersManager) (widget : TransfersWidget) :
    TransfersWidget :=
  let _sums := TransfersWidget.updateStateLoop manager manager.transfers (0, 0, 0)
  { widget with icon := widget.getIcon }

/-- The test both `populateMenu` and the `transferStarted` handler apply to a transfer:
`!transfer->isArchived() || transfer->getState() == Transfer::RunningState`. -/
def isListed (manager : TransfersManager) (transfer : TransferPtr) : Bool :=
  !(manager.deref transfer).isArchived
    || (manager.deref transfer).state == TransferState.RunningState

/-- The row built for a transfer: `new QWidgetAction` with a new `TransferActionWidget`
as its default widget. -/
def newWidgetAction (manager : TransfersManager) (transfer : TransferPtr) : QAction :=
  QAction.widgetAction (TransferActionWidget.new manager transfer)

/-- The loop of `TransfersWidget::populateMenu`. -/
def TransfersWidget.populateMenuLoop (manager : TransfersManager) :
    List TransferPtr → List QAction → List QAction
  | [], menu => menu
  | transfer :: rest, menu =>
      if isListed manager transfer then
        TransfersWidget.populateMenuLoop manager rest
          (QMenu.addSeparator (QMenu.addAction menu (newWidgetAction manager transfer)))
      else
        TransfersWidget.populateMenuLoop manager rest menu

/-- The method `TransfersWidget::populateMenu`. -/
def TransfersWidget.populateMenu (manager : TransfersManager) (widget : TransfersWidget) :
    TransfersWidget :=
  { widget with
    menu := QMenu.addAction
      (TransfersWidget.populateMenuLoop manager manager.transfers widget.menu)
      showAllDownloads }

/-- The lambda connected to `TransfersManager::transferStarted`. -/
def TransfersWidget.transferStarted (manager : TransfersManager) (widget : TransfersWidget)
    (transfer : TransferPtr) : TransfersWidget :=
  let widget :=
    if isListed manager transfer && widget.menuVisible then
      let firstAction := QMenu.value widget.menu 0
      let widgetAction := newWidgetAction manager transfer
      let menu := QMenu.insertAction widget.menu firstAction widgetAction
      -- the former first action now stands one position further down
      let firstAction := firstAction.map (· + 1)
      { widget with menu := QMenu.insertSeparator menu firstAction }
    else
      widget
  TransfersWidget.updateState manager widget

/-- The test of the `transferFinished` loop on one action: it is a `QWidgetAction`
whose default widget is a `TransferActionWidget` for `transfer`. -/
def isWidgetActionOf (transfer : TransferPtr) : QAction → Bool
  | QAction.widgetAction defaultWidget => decide (defaultWidget.getTransfer = transfer)
  | _ => false

/-- The loop of the `transferFinished` handler up to its `break`: the position of the
first action from position `i` on that passes the test, `actions` being the actions from
position `i` on. -/
def TransfersWidget.transferFinishedLoop (transfer : TransferPtr) :
    List QAction → Nat → Option Nat
  | [], _ => none
  | action :: rest, i =>
      if isWidgetActionOf transfer action then some i
      else TransfersWidget.transferFinishedLoop transfer rest (i + 1)

/-- The lambda connected to `TransfersManager::transferFinished`. -/
def TransfersWidget.transferFinished (manager : TransfersManager) (widget : TransfersWidget)
    (transfer : TransferPtr) : TransfersWidget :=
  let actions := widget.menu
  let widget :=
    match TransfersWidget.transferFinishedLoop transfer actions 0 with
    | some i =>
        let menu := QMenu.removeAction widget.menu (some i)
        -- `actions.value(i + 1)` has moved up by one position
        { widget with menu := QMenu.removeAction menu ((QMenu.value actions (i + 1)).map (· - 1)) }
    | none => widget
  TransfersWidget.updateState manager widget

/-- The slot connected to `QMenu::aboutToShow`, after which Qt shows the menu. -/
def TransfersWidget.showMenu (manager : TransfersManager) (widget : TransfersWidget) :
    TransfersWidget :=
  { TransfersWidget.populateMenu manager widget with menuVisible := true }

/-- The slot connected to `QMenu::aboutToHide` (`QMenu::clear`), after which Qt hides
the menu. -/
def TransfersWidget.hideMenu (widget : TransfersWidget) : TransfersWidget :=
  { widget with menu := [], menuVisible := false }

/-- The constructor `TransfersWidget::TransfersWidget`, up to the connections. -/
def TransfersWidget.new (manager : TransfersManager) : TransfersWidget :=
  TransfersWidget.updateState manager
    { m_icon := "transfers"
      icon := ""
      toolTip := "Downloads"
      menu := []
      menuVisible := false }

/-- The three-case reading of the progress value: the floored percentage
100*received/total for a known total, 0 for an unknown total in the Unknown or Error
state, -1 otherwise. -/
def progressValueSpec (state : TransferState) (bytesReceived bytesTotal : Int) : Int :=
  if bytesTotal > 0 then qFloor ((100 * (bytesReceived : ℚ)) / (bytesTotal : ℚ))
  else if state = TransferState.UnknownState ∨ state = TransferState.ErrorState then 0
  else -1

/-- The transfer manager that holds the given transfers, each at the address that is
its position in the list. -/
def managerOf (objects : List Transfer) : TransfersManager :=
  { transfers := List.range objects.length
    deref := fun transfer =>
      objects.getD transfer
        { isArchived := true, state := TransferState.UnknownState,
          bytesTotal := 0, bytesReceived := 0, target := "" } }

/-- The transfers that have a row in the menu, in the order of the menu. -/
def rowTransfers : List QAction → List TransferPtr
  | [] => []
  | QAction.widgetAction defaultWidget :: rest => defaultWidget.getTransfer :: rowTransfers rest
  | _ :: rest => rowTransfers rest

/-- Whether the action is a transfer row, that is a `QWidgetAction`. -/
def QAction.isWidgetAction : QAction → Bool
  | QAction.widgetAction _ => true
  | _ => false

/-- Every transfer row of the menu is immediately followed by a separator. -/
def RowsHaveSeparator (menu : List QAction) : Prop :=
  ∀ (i : Nat) (h : i < menu.length),
    (menu.get ⟨i, h⟩).isWidgetAction = true → menu[i + 1]? = some QAction.separator

instance (menu : List QAction) : Decidable (RowsHaveSeparator menu) := by
  unfold RowsHaveSeparator
  exact inferInstance

/-- The shape of the open menu: every transfer row is immediately followed by a
separator, and the last action is `Show all Downloads`. -/
def MenuShape (menu : List QAction) : Prop :=
  RowsHaveSeparator menu ∧ menu.getLast? = some showAllDownloads

instance (menu : List QAction) : Decidable (MenuShape menu) := by
  unfold MenuShape
  exact inferInstance

/-- What the `transferFinished` handler leaves of a menu, action by action: the first
row of the transfer and the action after it are dropped. -/
def withoutFirstRowOf (transfer : TransferPtr) : List QAction → List QAction
  | [] => []
  | action :: rest =>
      if isWidgetActionOf transfer action then rest.drop 1
      else action :: withoutFirstRowOf transfer rest

/-! ## The transfer row -/

theorem updateState_m_transfer (manager : TransfersManager) (widget : TransferActionWidget) :
    (TransferActionWidget.updateState manager widget).m_transfer = widget.m_transfer := by
  unfold TransferActionWidget.updateState
  dsimp only
  split <;> rfl

theorem updateState_toolButtonIcon (manager : TransfersManager)
    (widget : TransferActionWidget) :
    (TransferActionWidget.updateState manager widget).toolButtonIcon
      = (match (manager.deref widget.m_transfer).state with
          | TransferState.CancelledState | TransferState.ErrorState => "view-refresh"
          | TransferState.FinishedState => "document-open-folder"
          | _ => "task-reject") := by
  unfold TransferActionWidget.updateState
  dsimp only
  split <;> rfl

theorem updateState_toolButtonToolTip (manager : TransfersManager)
    (widget : TransferActionWidget) :
    (TransferActionWidget.updateState manager widget).toolButtonToolTip
      = (match (manager.deref widget.m_transfer).state with
          | TransferState.CancelledState | TransferState.ErrorState => "Redownload"
          | TransferState.FinishedState => "Open Folder"
          | _ => "Cancel") := by
  unfold TransferActionWidget.updateState
  dsimp only
  split <;> rfl

theorem new_m_transfer (manager : TransfersManager) (transfer : TransferPtr) :
    (TransferActionWidget.new manager transfer).m_transfer = transfer := by
  unfold TransferActionWidget.new
  rw [updateState_m_transfer]

/-- C1: one click on the tool button issues exactly one command, chosen by the state the
transfer has when the click happens (whatever it was when the row was built): `restart()`
in the Cancelled and Error states, opening the folder of the target in the Finished state,
`cancel()` in every other state. -/
theorem clicked_issues_one_command_by_current_state
    (atConstruction atClick : TransfersManager) (transfer : TransferPtr) :
    (TransferActionWidget.clicked atClick
        (TransferActionWidget.new atConstruction transfer)).length = 1
    ∧ ((atClick.deref transfer).state = TransferState.CancelledState
        ∨ (atClick.deref transfer).state = TransferState.ErrorState →
      TransferActionWidget.clicked atClick (TransferActionWidget.new atConstruction transfer)
        = [Command.restart transfer])
    ∧ ((atClick.deref transfer).state = TransferState.FinishedState →
      TransferActionWidget.clicked atClick (TransferActionWidget.new atConstruction transfer)
        = [Command.openContainingFolder (atClick.deref transfer).target])
    ∧ ((atClick.deref transfer).state ≠ TransferState.CancelledState →
       (atClick.deref transfer).state ≠ TransferState.ErrorState →
       (atClick.deref transfer).state ≠ TransferState.FinishedState →
      TransferActionWidget.clicked atClick (TransferActionWidget.new atConstruction transfer)
        = [Command.cancel transfer]) := by
  unfold TransferActionWidget.clicked
  rw [new_m_transfer]
  cases (atClick.deref transfer).state <;> simp

/-- A row built while the transfer was running, clicked after it has finished: the one
command is the opening of the target's folder. -/
theorem clicked_issues_one_command_by_current_state_witness :
    TransferActionWidget.clicked
        (managerOf [{ isArchived := false, state := TransferState.FinishedState,
                      bytesTotal := 100, bytesReceived := 100, target := "/home/user/a.iso" }])
        (TransferActionWidget.new
          (managerOf [{ isArchived := false, state := TransferState.RunningState,
                        bytesTotal := 100, bytesReceived := 50, target := "/home/user/a.iso" }])
          0)
      = [Command.openContainingFolder "/home/user/a.iso"] :=
  (clicked_issues_one_command_by_current_state
    (managerOf [{ isArchived := false, state := TransferState.RunningState,
                  bytesTotal := 100, bytesReceived := 50, target := "/home/user/a.iso" }])
    (managerOf [{ isArchived := false, state := TransferState.FinishedState,
                  bytesTotal := 100, bytesReceived := 100, target := "/home/user/a.iso" }])
    0).2.2.1 rfl

/-- C5: the label of the tool button names the command a click issues, in every state:
`Redownload` with the icon `view-refresh` exactly when a click calls `restart()`, that
is in the Cancelled and Error states; `Open Folder` with `document-open-folder` exactly
when a click opens the folder of the target, that is in the Finished state; `Cancel`
with `task-reject` exactly when a click calls `cancel()`, that is in all other states. -/
theorem label_names_the_command_of_a_click
    (manager : TransfersManager) (widget : TransferActionWidget) :
    (((TransferActionWidget.updateState manager widget).toolButtonToolTip = "Redownload"
        ∧ (TransferActionWidget.updateState manager widget).toolButtonIcon = "view-refresh")
      ↔ TransferActionWidget.clicked manager (TransferActionWidget.updateState manager widget)
          = [Command.restart widget.m_transfer])
    ∧ (TransferActionWidget.clicked manager (TransferActionWidget.updateState manager widget)
          = [Command.restart widget.m_transfer]
      ↔ ((manager.deref widget.m_transfer).state = TransferState.CancelledState
          ∨ (manager.deref widget.m_transfer).state = TransferState.ErrorState))
    ∧ (((TransferActionWidget.updateState manager widget).toolButtonToolTip = "Open Folder"
        ∧ (TransferActionWidget.updateState manager widget).toolButtonIcon
            = "document-open-folder")
      ↔ TransferActionWidget.clicked manager (TransferActionWidget.updateState manager widget)
          = [Command.openContainingFolder (manager.deref widget.m_transfer).target])
    ∧ (TransferActionWidget.clicked manager (TransferActionWidget.updateState manager widget)
          = [Command.openContainingFolder (manager.deref widget.m_transfer).target]
      ↔ (manager.deref widget.m_transfer).state = TransferState.FinishedState)
    ∧ (((TransferActionWidget.updateState manager widget).toolButtonToolTip = "Cancel"
        ∧ (TransferActionWidget.updateState manager widget).toolButtonIcon = "task-reject")
      ↔ TransferActionWidget.clicked manager (TransferActionWidget.updateState manager widget)
          = [Command.cancel widget.m_transfer])
    ∧ (TransferActionWidget.clicked manager (TransferActionWidget.updateState manager widget)
          = [Command.cancel widget.m_transfer]
      ↔ ((manager.deref widget.m_transfer).state ≠ TransferState.CancelledState
          ∧ (manager.deref widget.m_transfer).state ≠ TransferState.ErrorState
          ∧ (manager.deref widget.m_transfer).state ≠ TransferState.FinishedState)) := by
  unfold TransferActionWidget.clicked
  rw [updateState_m_transfer, updateState_toolButtonIcon, updateState_toolButtonToolTip]
  cases hs : (manager.deref widget.m_transfer).state <;> simp <;> decide

/-- C7: a mouse release on the row accepts the event and calls `openTarget()` once when
the button is the left one, and issues nothing for any other button; a mouse press
accepts the event and issues nothing; neither handler issues `cancel()` or `restart()`. -/
theorem mouse_release_opens_target_on_left_button
    (widget : TransferActionWidget) (event : QMouseEvent) (transfer : TransferPtr) :
    (TransferActionWidget.mouseReleaseEvent widget event).2
        = (if event.button = MouseButton.LeftButton
            then [Command.openTarget widget.m_transfer] else [])
    ∧ (TransferActionWidget.mousePressEvent widget event).2 = []
    ∧ (TransferActionWidget.mouseReleaseEvent widget event).1.accepted = true
    ∧ (TransferActionWidget.mousePressEvent widget event).1.accepted = true
    ∧ (TransferActionWidget.mouseReleaseEvent widget event).1.button = event.button
    ∧ (TransferActionWidget.mousePressEvent widget event).1.button = event.button
    ∧ Command.cancel transfer ∉ (TransferActionWidget.mouseReleaseEvent widget event).2
    ∧ Command.restart transfer ∉ (TransferActionWidget.mouseReleaseEvent widget event).2
    ∧ Command.cancel transfer ∉ (TransferActionWidget.mousePressEvent widget event).2
    ∧ Command.restart transfer ∉ (TransferActionWidget.mousePressEvent widget event).2 := by
  unfold TransferActionWidget.mouseReleaseEvent TransferActionWidget.mousePressEvent
    QMouseEvent.accept
  by_cases h : event.button = MouseButton.LeftButton <;> simp [h]

/-! ## The progress bar -/

theorem updateState_progress (manager : TransfersManager) (widget : TransferActionWidget) :
    (TransferActionWidget.updateState manager widget).progressMinimum = 0
    ∧ (TransferActionWidget.updateState manager widget).progressMaximum
        = (if (manager.deref widget.m_transfer).bytesTotal ≤ 0
              ∧ ¬ ((manager.deref widget.m_transfer).state = TransferState.UnknownState
                    ∨ (manager.deref widget.m_transfer).state = TransferState.ErrorState)
            then 0 else 100)
    ∧ (TransferActionWidget.updateState manager widget).progressValue
        = TransferActionWidget.progressValueExpr
            (decide ((manager.deref widget.m_transfer).bytesTotal ≤ 0))
            (decide ((manager.deref widget.m_transfer).state = TransferState.UnknownState
                    ∨ (manager.deref widget.m_transfer).state = TransferState.ErrorState))
            (manager.deref widget.m_transfer).bytesReceived
            (manager.deref widget.m_transfer).bytesTotal
    ∧ (TransferActionWidget.updateState manager widget).progressFormat
        = (if (manager.deref widget.m_transfer).bytesTotal ≤ 0 then "Unknown" else "%p%") := by
  unfold TransferActionWidget.updateState
  dsimp only
  split <;> simp <;> rfl

theorem qFloor_of_fits (v : ℚ) (hLow : INT_MIN ≤ Int.floor v) (hHigh : Int.floor v ≤ INT_MAX) :
    qFloor v = Int.floor v := by
  unfold qFloor
  rw [if_pos ⟨hLow, hHigh⟩]

theorem floor_percent_exact_bounds (bytesReceived bytesTotal : Int) (hTotal : 0 < bytesTotal)
    (hLow : 0 ≤ bytesReceived) (hHigh : bytesReceived ≤ bytesTotal) :
    0 ≤ Int.floor ((bytesReceived : ℚ) / (bytesTotal : ℚ) * 100)
    ∧ Int.floor ((bytesReceived : ℚ) / (bytesTotal : ℚ) * 100) ≤ 100
    ∧ (Int.floor ((bytesReceived : ℚ) / (bytesTotal : ℚ) * 100) = 100
        ↔ bytesReceived = bytesTotal) := by
  have hT : (0 : ℚ) < (bytesTotal : ℚ) := by exact_mod_cast hTotal
  have hR : (0 : ℚ) ≤ (bytesReceived : ℚ) := by exact_mod_cast hLow
  have hRT : (bytesReceived : ℚ) ≤ (bytesTotal : ℚ) := by exact_mod_cast hHigh
  have hratio : (bytesReceived : ℚ) / (bytesTotal : ℚ) ≤ 1 := (div_le_one hT).mpr hRT
  have hupper : (bytesReceived : ℚ) / (bytesTotal : ℚ) * 100 ≤ 100 := by linarith
  have hlower : (0 : ℚ) ≤ (bytesReceived : ℚ) / (bytesTotal : ℚ) * 100 :=
    mul_nonneg (div_nonneg hR hT.le) (by norm_num)
  have hfloor := Int.floor_le ((bytesReceived : ℚ) / (bytesTotal : ℚ) * 100)
  refine ⟨Int.floor_nonneg.mpr hlower, ?_, ?_⟩
  · have : ((⌊(bytesReceived : ℚ) / (bytesTotal : ℚ) * 100⌋ : Int) : ℚ) ≤ ((100 : Int) : ℚ) := by
      push_cast
      linarith
    exact_mod_cast this
  · constructor
    · intro h
      rw [h] at hfloor
      have h1 : (1 : ℚ) ≤ (bytesReceived : ℚ) / (bytesTotal : ℚ) := by
        push_cast at hfloor
        linarith
      have h2 : (bytesTotal : ℚ) ≤ (bytesReceived : ℚ) := by
        have := (le_div_iff₀ hT).mp h1
        linarith
      have h3 : bytesTotal ≤ bytesReceived := by exact_mod_cast h2
      omega
    · intro h
      subst h
      rw [div_self (ne_of_gt hT)]
      norm_num

theorem floor_percent_bounds (bytesReceived bytesTotal : Int) (hTotal : 0 < bytesTotal)
    (hLow : 0 ≤ bytesReceived) (hHigh : bytesReceived ≤ bytesTotal) :
    0 ≤ qFloor (Utils.calculatePercent bytesReceived bytesTotal)
    ∧ qFloor (Utils.calculatePercent bytesReceived bytesTotal) ≤ 100
    ∧ (qFloor (Utils.calculatePercent bytesReceived bytesTotal) = 100
        ↔ bytesReceived = bytesTotal) := by
  have hb := floor_percent_exact_bounds bytesReceived bytesTotal hTotal hLow hHigh
  have hfits : qFloor (Utils.calculatePercent bytesReceived bytesTotal)
      = Int.floor ((bytesReceived : ℚ) / (bytesTotal : ℚ) * 100) := by
    unfold Utils.calculatePercent
    apply qFloor_of_fits
    · unfold INT_MIN
      omega
    · unfold INT_MAX
      omega
  rw [hfits]
  exact hb

theorem progressValueExpr_eq_spec (state : TransferState) (bytesReceived bytesTotal : Int) :
    TransferActionWidget.progressValueExpr (decide (bytesTotal ≤ 0))
        (decide (state = TransferState.UnknownState ∨ state = TransferState.ErrorState))
        bytesReceived bytesTotal
      = progressValueSpec state bytesReceived bytesTotal := by
  unfold TransferActionWidget.progressValueExpr progressValueSpec Utils.calculatePercent
  by_cases hT : bytesTotal ≤ 0
  · have hT2 : ¬ bytesTotal > 0 := by omega
    by_cases hE : state = TransferState.UnknownState ∨ state = TransferState.ErrorState
    · simp [hT, hT2, hE]
    · simp [hT, hT2, hE]
  · have hT2 : bytesTotal > 0 := by omega
    have hfrac : (bytesReceived : ℚ) / (bytesTotal : ℚ) * 100
        = 100 * (bytesReceived : ℚ) / (bytesTotal : ℚ) := by ring
    simp [hT, hT2, hfrac]

theorem updateState_progressBar (manager : TransfersManager) (widget : TransferActionWidget) :
    (TransferActionWidget.updateState manager widget).m_progressBar
      = ((widget.m_progressBar.setRange 0
            (if (manager.deref widget.m_transfer).bytesTotal ≤ 0
                ∧ ¬ ((manager.deref widget.m_transfer).state = TransferState.UnknownState
                      ∨ (manager.deref widget.m_transfer).state = TransferState.ErrorState)
              then 0 else 100)).setValue
          (TransferActionWidget.progressValueExpr
            (decide ((manager.deref widget.m_transfer).bytesTotal ≤ 0))
            (decide ((manager.deref widget.m_transfer).state = TransferState.UnknownState
                    ∨ (manager.deref widget.m_transfer).state = TransferState.ErrorState))
            (manager.deref widget.m_transfer).bytesReceived
            (manager.deref widget.m_transfer).bytesTotal)).setFormat
        (if (manager.deref widget.m_transfer).bytesTotal ≤ 0 then "Unknown" else "%p%") := by
  obtain ⟨-, hmax, hval, hfmt⟩ := updateState_progress manager widget
  rw [← hmax, ← hval, ← hfmt]
  unfold TransferActionWidget.updateState
  dsimp only
  split <;> rfl

theorem setRange_range (bar : QProgressBar) (maximum : Int) (hMax : 0 ≤ maximum) :
    (bar.setRange 0 maximum).minimum = 0 ∧ (bar.setRange 0 maximum).maximum = maximum := by
  have hmax : max 0 maximum = maximum := max_eq_right hMax
  unfold QProgressBar.setRange QProgressBar.reset
  by_cases h : (0 : Int) ≠ bar.minimum ∨ maximum ≠ bar.maximum
  · rw [if_pos h]
    dsimp only
    split_ifs <;> simp [hmax]
  · rw [if_neg h]
    constructor <;> omega

theorem progressBar_range (bar : QProgressBar) (maximum value : Int) (format : String)
    (hMax : 0 ≤ maximum) :
    (((bar.setRange 0 maximum).setValue value).setFormat format).minimum = 0
    ∧ (((bar.setRange 0 maximum).setValue value).setFormat format).maximum = maximum
    ∧ (((bar.setRange 0 maximum).setValue value).setFormat format).format = format := by
  have hrange := setRange_range bar maximum hMax
  unfold QProgressBar.setValue QProgressBar.setFormat
  split <;> simp [hrange.1, hrange.2]

theorem progressBar_value (bar : QProgressBar) (maximum value : Int) (format : String)
    (hMax : 0 ≤ maximum) (hValue : (0 ≤ value ∧ value ≤ maximum) ∨ maximum = 0) :
    (((bar.setRange 0 maximum).setValue value).setFormat format).value = value := by
  have hrange := setRange_range bar maximum hMax
  unfold QProgressBar.setValue QProgressBar.setFormat
  rw [hrange.1, hrange.2]
  by_cases hsame : (bar.setRange 0 maximum).value = value
  · simp [hsame]
  · have hkeep : ¬ ((bar.setRange 0 maximum).value = value
        ∨ ((value > maximum ∨ value < 0) ∧ (maximum ≠ 0 ∨ (0 : Int) ≠ 0))) := by
      rintro (h | ⟨h1, h2⟩)
      · exact hsame h
      · rcases hValue with ⟨h3, h4⟩ | h3
        · omega
        · rcases h2 with h2 | h2
          · exact h2 h3
          · exact h2 rfl
    rw [if_neg hkeep]

/-- C4 as stated fails twice. A transfer in the Error state without a known total gets
the range 0..100 and the value 0, not the range 0..0 and the value -1. And a running
transfer that has 2 bytes of a total of 1 does not get the value floor(200): the new bar
ignores a value above its maximum and keeps -1. -/
theorem claimed_progress_bar_policy_fails :
    ¬ (∀ (manager : TransfersManager) (widget : TransferActionWidget),
        (manager.deref widget.m_transfer).bytesTotal ≤ 0 →
          (TransferActionWidget.updateState manager widget).m_progressBar.minimum = 0
          ∧ (TransferActionWidget.updateState manager widget).m_progressBar.maximum = 0
          ∧ (TransferActionWidget.updateState manager widget).m_progressBar.value = -1
          ∧ (TransferActionWidget.updateState manager widget).m_progressBar.format
              = "Unknown")
    ∧ ¬ (∀ (manager : TransfersManager) (widget : TransferActionWidget),
        (manager.deref widget.m_transfer).bytesTotal > 0 →
          (TransferActionWidget.updateState manager widget).m_progressBar.minimum = 0
          ∧ (TransferActionWidget.updateState manager widget).m_progressBar.maximum = 100
          ∧ (TransferActionWidget.updateState manager widget).m_progressBar.value
              = Int.floor ((((manager.deref widget.m_transfer).bytesReceived : ℚ)
                  / ((manager.deref widget.m_transfer).bytesTotal : ℚ)) * 100)
          ∧ (TransferActionWidget.updateState manager widget).m_progressBar.format
              = "%p%") := by
  constructor
  · intro h
    have h1 := h
      (managerOf [{ isArchived := false, state := TransferState.ErrorState,
                    bytesTotal := 0, bytesReceived := 0, target := "/home/user/a.iso" }])
      (TransferActionWidget.mk 0 0 100 (-1) "%p%" "" "" QProgressBar.fresh)
      (by decide)
    exact absurd h1.2.1 (by decide)
  · intro h
    have h1 := (h
      (managerOf [{ isArchived := false, state := TransferState.RunningState,
                    bytesTotal := 1, bytesReceived := 2, target := "/home/user/a.iso" }])
      (TransferActionWidget.mk 0 0 100 (-1) "%p%" "" "" QProgressBar.fresh)
      (by decide)).2.2.1
    rw [updateState_progressBar] at h1
    norm_num [managerOf, QProgressBar.fresh, QProgressBar.setRange, QProgressBar.setValue,
      QProgressBar.setFormat, TransferActionWidget.progressValueExpr, qFloor,
      Utils.calculatePercent, INT_MIN, INT_MAX] at h1

/-- C4, amended: when `bytesTotal <= 0` and the state is neither Unknown nor Error the bar
is indeterminate (range 0..0, value -1, format `Unknown`); when `bytesTotal <= 0` and the
state is Unknown or Error the bar has range 0..100, value 0 and format `Unknown`; when
`bytesTotal > 0` the bar has range 0..100 and format `%p%`, and its value is
floor(received/total in percent) whenever that lies in 0..100, as it does for
`0 <= bytesReceived <= bytesTotal`. -/
theorem progress_bar_policy (manager : TransfersManager) (widget : TransferActionWidget) :
    ((manager.deref widget.m_transfer).bytesTotal ≤ 0 →
      ¬ ((manager.deref widget.m_transfer).state = TransferState.UnknownState
          ∨ (manager.deref widget.m_transfer).state = TransferState.ErrorState) →
        (TransferActionWidget.updateState manager widget).m_progressBar.minimum = 0
        ∧ (TransferActionWidget.updateState manager widget).m_progressBar.maximum = 0
        ∧ (TransferActionWidget.updateState manager widget).m_progressBar.value = -1
        ∧ (TransferActionWidget.updateState manager widget).m_progressBar.format = "Unknown")
    ∧ ((manager.deref widget.m_transfer).bytesTotal ≤ 0 →
      ((manager.deref widget.m_transfer).state = TransferState.UnknownState
          ∨ (manager.deref widget.m_transfer).state = TransferState.ErrorState) →
        (TransferActionWidget.updateState manager widget).m_progressBar.minimum = 0
        ∧ (TransferActionWidget.updateState manager widget).m_progressBar.maximum = 100
        ∧ (TransferActionWidget.updateState manager widget).m_progressBar.value = 0
        ∧ (TransferActionWidget.updateState manager widget).m_progressBar.format = "Unknown")
    ∧ ((manager.deref widget.m_transfer).bytesTotal > 0 →
        (TransferActionWidget.updateState manager widget).m_progressBar.minimum = 0
        ∧ (TransferActionWidget.updateState manager widget).m_progressBar.maximum = 100
        ∧ (TransferActionWidget.updateState manager widget).m_progressBar.format = "%p%")
    ∧ ((manager.deref widget.m_transfer).bytesTotal > 0 →
       0 ≤ Int.floor ((((manager.deref widget.m_transfer).bytesReceived : ℚ)
              / ((manager.deref widget.m_transfer).bytesTotal : ℚ)) * 100) →
       Int.floor ((((manager.deref widget.m_transfer).bytesReceived : ℚ)
              / ((manager.deref widget.m_transfer).bytesTotal : ℚ)) * 100) ≤ 100 →
        (TransferActionWidget.updateState manager widget).m_progressBar.value
          = Int.floor ((((manager.deref widget.m_transfer).bytesReceived : ℚ)
              / ((manager.deref widget.m_transfer).bytesTotal : ℚ)) * 100))
    ∧ ((manager.deref widget.m_transfer).bytesTotal > 0 →
       0 ≤ (manager.deref widget.m_transfer).bytesReceived →
       (manager.deref widget.m_transfer).bytesReceived
          ≤ (manager.deref widget.m_transfer).bytesTotal →
        (TransferActionWidget.updateState manager widget).m_progressBar.value
          = Int.floor ((((manager.deref widget.m_transfer).bytesReceived : ℚ)
              / ((manager.deref widget.m_transfer).bytesTotal : ℚ)) * 100)) := by
  rw [updateState_progressBar]
  have hfloor : (manager.deref widget.m_transfer).bytesTotal > 0 →
      0 ≤ Int.floor ((((manager.deref widget.m_transfer).bytesReceived : ℚ)
              / ((manager.deref widget.m_transfer).bytesTotal : ℚ)) * 100) →
      Int.floor ((((manager.deref widget.m_transfer).bytesReceived : ℚ)
              / ((manager.deref widget.m_transfer).bytesTotal : ℚ)) * 100) ≤ 100 →
      (((widget.m_progressBar.setRange 0
            (if (manager.deref widget.m_transfer).bytesTotal ≤ 0
                ∧ ¬ ((manager.deref widget.m_transfer).state = TransferState.UnknownState
                      ∨ (manager.deref widget.m_transfer).state = TransferState.ErrorState)
              then 0 else 100)).setValue
          (TransferActionWidget.progressValueExpr
            (decide ((manager.deref widget.m_transfer).bytesTotal ≤ 0))
            (decide ((manager.deref widget.m_transfer).state = TransferState.UnknownState
                    ∨ (manager.deref widget.m_transfer).state = TransferState.ErrorState))
            (manager.deref widget.m_transfer).bytesReceived
            (manager.deref widget.m_transfer).bytesTotal)).setFormat
        (if (manager.deref widget.m_transfer).bytesTotal ≤ 0 then "Unknown" else "%p%")).value
        = Int.floor ((((manager.deref widget.m_transfer).bytesReceived : ℚ)
              / ((manager.deref widget.m_transfer).bytesTotal : ℚ)) * 100) := by
    intro hT h0 h100
    have hT2 : ¬ (manager.deref widget.m_transfer).bytesTotal ≤ 0 := by omega
    have hq : qFloor (Utils.calculatePercent (manager.deref widget.m_transfer).bytesReceived
          (manager.deref widget.m_transfer).bytesTotal)
        = Int.floor ((((manager.deref widget.m_transfer).bytesReceived : ℚ)
              / ((manager.deref widget.m_transfer).bytesTotal : ℚ)) * 100) := by
      unfold Utils.calculatePercent
      apply qFloor_of_fits
      · unfold INT_MIN
        omega
      · unfold INT_MAX
        omega
    have hexpr : TransferActionWidget.progressValueExpr
          (decide ((manager.deref widget.m_transfer).bytesTotal ≤ 0))
          (decide ((manager.deref widget.m_transfer).state = TransferState.UnknownState
                  ∨ (manager.deref widget.m_transfer).state = TransferState.ErrorState))
          (manager.deref widget.m_transfer).bytesReceived
          (manager.deref widget.m_transfer).bytesTotal
        = Int.floor ((((manager.deref widget.m_transfer).bytesReceived : ℚ)
              / ((manager.deref widget.m_transfer).bytesTotal : ℚ)) * 100) := by
      rw [← hq]
      simp [TransferActionWidget.progressValueExpr, hT, hT2]
    rw [hexpr, if_neg (fun h => hT2 h.1)]
    exact progressBar_value _ 100 _ _ (by norm_num) (Or.inl ⟨h0, h100⟩)
  refine ⟨?_, ?_, ?_, hfloor, ?_⟩
  · intro hT hE
    have hvalue : TransferActionWidget.progressValueExpr
          (decide ((manager.deref widget.m_transfer).bytesTotal ≤ 0))
          (decide ((manager.deref widget.m_transfer).state = TransferState.UnknownState
                  ∨ (manager.deref widget.m_transfer).state = TransferState.ErrorState))
          (manager.deref widget.m_transfer).bytesReceived
          (manager.deref widget.m_transfer).bytesTotal = -1 := by
      simp [TransferActionWidget.progressValueExpr, hT, hE]
    rw [hvalue, if_pos ⟨hT, hE⟩, if_pos hT]
    obtain ⟨h1, h2, h3⟩ := progressBar_range widget.m_progressBar 0 (-1) "Unknown" le_rfl
    exact ⟨h1, h2, progressBar_value _ 0 _ _ le_rfl (Or.inr rfl), h3⟩
  · intro hT hE
    have hvalue : TransferActionWidget.progressValueExpr
          (decide ((manager.deref widget.m_transfer).bytesTotal ≤ 0))
          (decide ((manager.deref widget.m_transfer).state = TransferState.UnknownState
                  ∨ (manager.deref widget.m_transfer).state = TransferState.ErrorState))
          (manager.deref widget.m_transfer).bytesReceived
          (manager.deref widget.m_transfer).bytesTotal = 0 := by
      simp [TransferActionWidget.progressValueExpr, hT, hE]
    rw [hvalue, if_neg (fun h => h.2 hE), if_pos hT]
    obtain ⟨h1, h2, h3⟩ :=
      progressBar_range widget.m_progressBar 100 0 "Unknown" (by norm_num)
    exact ⟨h1, h2,
      progressBar_value _ 100 _ _ (by norm_num) (Or.inl ⟨le_rfl, by norm_num⟩), h3⟩
  · intro hT
    have hT2 : ¬ (manager.deref widget.m_transfer).bytesTotal ≤ 0 := by omega
    rw [if_neg (fun h => hT2 h.1), if_neg hT2]
    exact progressBar_range widget.m_progressBar 100 _ "%p%" (by norm_num)
  · intro hT hLow hHigh
    have hb := floor_percent_exact_bounds _ _ hT hLow hHigh
    exact hfloor hT hb.1 hb.2.1

/-- The cases of the policy at a running transfer without a known total, at a failed one
without a known total, and at running ones that have 50 of 100 bytes and 1 of 3 bytes. -/
theorem progress_bar_policy_witness :
    (TransferActionWidget.updateState
        (managerOf [{ isArchived := false, state := TransferState.RunningState,
                      bytesTotal := 0, bytesReceived := 7, target := "/home/user/a.iso" }])
        (TransferActionWidget.mk 0 0 100 (-1) "%p%" "" "" QProgressBar.fresh)).m_progressBar
        = { minimum := 0, maximum := 0, value := -1, format := "Unknown" }
    ∧ (TransferActionWidget.updateState
        (managerOf [{ isArchived := false, state := TransferState.ErrorState,
                      bytesTotal := 0, bytesReceived := 0, target := "/home/user/a.iso" }])
        (TransferActionWidget.mk 0 0 100 (-1) "%p%" "" "" QProgressBar.fresh)).m_progressBar.value
        = 0
    ∧ (TransferActionWidget.updateState
        (managerOf [{ isArchived := false, state := TransferState.RunningState,
                      bytesTotal := 100, bytesReceived := 50, target := "/home/user/a.iso" }])
        (TransferActionWidget.mk 0 0 100 (-1) "%p%" "" "" QProgressBar.fresh)).m_progressBar.maximum
        = 100
    ∧ (TransferActionWidget.updateState
        (managerOf [{ isArchived := false, state := TransferState.RunningState,
                      bytesTotal := 100, bytesReceived := 50, target := "/home/user/a.iso" }])
        (TransferActionWidget.mk 0 0 100 (-1) "%p%" "" "" QProgressBar.fresh)).m_progressBar.value
        = 50
    ∧ (TransferActionWidget.updateState
        (managerOf [{ isArchived := false, state := TransferState.RunningState,
                      bytesTotal := 3, bytesReceived := 1, target := "/home/user/a.iso" }])
        (TransferActionWidget.mk 0 0 100 (-1) "%p%" "" "" QProgressBar.fresh)).m_progressBar.value
        = 33 := by
  refine ⟨?_, ?_, ?_, ?_, ?_⟩
  · obtain ⟨h1, h2, h3, h4⟩ := (progress_bar_policy
      (managerOf [{ isArchived := false, state := TransferState.RunningState,
                    bytesTotal := 0, bytesReceived := 7, target := "/home/user/a.iso" }])
      (TransferActionWidget.mk 0 0 100 (-1) "%p%" "" "" QProgressBar.fresh)).1
        (by decide) (by decide)
    exact (QProgressBar.mk.injEq _ _ _ _ _ _ _ _).mpr ⟨h1, h2, h3, h4⟩
  · exact ((progress_bar_policy
      (managerOf [{ isArchived := false, state := TransferState.ErrorState,
                    bytesTotal := 0, bytesReceived := 0, target := "/home/user/a.iso" }])
      (TransferActionWidget.mk 0 0 100 (-1) "%p%" "" "" QProgressBar.fresh)).2.1
        (by decide) (by decide)).2.2.1
  · exact ((progress_bar_policy
      (managerOf [{ isArchived := false, state := TransferState.RunningState,
                    bytesTotal := 100, bytesReceived := 50, target := "/home/user/a.iso" }])
      (TransferActionWidget.mk 0 0 100 (-1) "%p%" "" "" QProgressBar.fresh)).2.2.1
        (by decide)).2.1
  · have h := (progress_bar_policy
      (managerOf [{ isArchived := false, state := TransferState.RunningState,
                    bytesTotal := 100, bytesReceived := 50, target := "/home/user/a.iso" }])
      (TransferActionWidget.mk 0 0 100 (-1) "%p%" "" "" QProgressBar.fresh)).2.2.2.2
        (by decide) (by decide) (by decide)
    rw [h]
    norm_num [managerOf]
  · have h := (progress_bar_policy
      (managerOf [{ isArchived := false, state := TransferState.RunningState,
                    bytesTotal := 3, bytesReceived := 1, target := "/home/user/a.iso" }])
      (TransferActionWidget.mk 0 0 100 (-1) "%p%" "" "" QProgressBar.fresh)).2.2.2.1
        (by decide) (by norm_num [managerOf, Int.floor_nonneg])
        (by norm_num [managerOf, Int.floor_le_iff])
    rw [h]
    norm_num [managerOf, Int.floor_eq_iff]

/-- C10: the value given to the progress bar fits the range set with it. The value
expression equals the three-case definition for every input, the inner fallback -1 of
the determinate branch being unreachable; for `0 <= bytesReceived <= bytesTotal` and
`bytesTotal > 0` the range is 0..100 and the value lies in it, being 100 exactly when
`bytesReceived = bytesTotal`; for `bytesTotal <= 0` the value is 0 with range 0..100 in
the Unknown and Error states, and -1 with range 0..0 otherwise. -/
theorem progress_value_fits_range (manager : TransfersManager)
    (widget : TransferActionWidget) :
    (TransferActionWidget.updateState manager widget).progressValue
        = progressValueSpec (manager.deref widget.m_transfer).state
            (manager.deref widget.m_transfer).bytesReceived
            (manager.deref widget.m_transfer).bytesTotal
    ∧ (∀ (hasError : Bool) (bytesReceived bytesTotal : Int), ¬ bytesTotal ≤ 0 →
        TransferActionWidget.progressValueExpr (decide (bytesTotal ≤ 0)) hasError
            bytesReceived bytesTotal
          = qFloor (Utils.calculatePercent bytesReceived bytesTotal))
    ∧ ((manager.deref widget.m_transfer).bytesTotal > 0 →
       0 ≤ (manager.deref widget.m_transfer).bytesReceived →
       (manager.deref widget.m_transfer).bytesReceived
          ≤ (manager.deref widget.m_transfer).bytesTotal →
        (TransferActionWidget.updateState manager widget).progressMinimum = 0
        ∧ (TransferActionWidget.updateState manager widget).progressMaximum = 100
        ∧ 0 ≤ (TransferActionWidget.updateState manager widget).progressValue
        ∧ (TransferActionWidget.updateState manager widget).progressValue ≤ 100
        ∧ ((TransferActionWidget.updateState manager widget).progressValue = 100
            ↔ (manager.deref widget.m_transfer).bytesReceived
                = (manager.deref widget.m_transfer).bytesTotal))
    ∧ ((manager.deref widget.m_transfer).bytesTotal ≤ 0 →
      ((manager.deref widget.m_transfer).state = TransferState.UnknownState
          ∨ (manager.deref widget.m_transfer).state = TransferState.ErrorState) →
        (TransferActionWidget.updateState manager widget).progressValue = 0
        ∧ (TransferActionWidget.updateState manager widget).progressMinimum = 0
        ∧ (TransferActionWidget.updateState manager widget).progressMaximum = 100)
    ∧ ((manager.deref widget.m_transfer).bytesTotal ≤ 0 →
      ¬ ((manager.deref widget.m_transfer).state = TransferState.UnknownState
          ∨ (manager.deref widget.m_transfer).state = TransferState.ErrorState) →
        (TransferActionWidget.updateState manager widget).progressValue = -1
        ∧ (TransferActionWidget.updateState manager widget).progressMinimum = 0
        ∧ (TransferActionWidget.updateState manager widget).progressMaximum = 0) := by
  obtain ⟨hmin, hmax, hval, -⟩ := updateState_progress manager widget
  rw [hmin, hmax, hval]
  refine ⟨progressValueExpr_eq_spec _ _ _, ?_, ?_, ?_, ?_⟩
  · intro hasError bytesReceived bytesTotal hT
    have hT2 : bytesTotal > 0 := by omega
    simp [TransferActionWidget.progressValueExpr, hT, hT2]
  · intro hT hLow hHigh
    have hT2 : ¬ (manager.deref widget.m_transfer).bytesTotal ≤ 0 := by omega
    have hb := floor_percent_bounds _ _ hT hLow hHigh
    simp only [TransferActionWidget.progressValueExpr, hT, hT2, decide_False, if_true,
      false_and, if_false]
    exact ⟨trivial, trivial, hb⟩
  · intro hT hE
    simp [TransferActionWidget.progressValueExpr, hT, hE]
  · intro hT hE
    simp [TransferActionWidget.progressValueExpr, hT, hE]

/-- A running transfer that has all 100 of its 100 bytes shows the value 100; one in the
Unknown state without a total shows 0 in the range 0..100; a running one without a total
shows -1 in the range 0..0. -/
theorem progress_value_fits_range_witness :
    (TransferActionWidget.updateState
        (managerOf [{ isArchived := false, state := TransferState.RunningState,
                      bytesTotal := 100, bytesReceived := 100, target := "/home/user/a.iso" }])
        (TransferActionWidget.mk 0 0 100 (-1) "%p%" "" "" QProgressBar.fresh)).progressValue = 100
    ∧ (TransferActionWidget.updateState
        (managerOf [{ isArchived := false, state := TransferState.UnknownState,
                      bytesTotal := -1, bytesReceived := 0, target := "/home/user/a.iso" }])
        (TransferActionWidget.mk 0 0 100 (-1) "%p%" "" "" QProgressBar.fresh)).progressValue = 0
    ∧ (TransferActionWidget.updateState
        (managerOf [{ isArchived := false, state := TransferState.RunningState,
                      bytesTotal := 0, bytesReceived := 7, target := "/home/user/a.iso" }])
        (TransferActionWidget.mk 0 0 100 (-1) "%p%" "" "" QProgressBar.fresh)).progressValue = -1 :=
  ⟨((progress_value_fits_range
      (managerOf [{ isArchived := false, state := TransferState.RunningState,
                    bytesTotal := 100, bytesReceived := 100, target := "/home/user/a.iso" }])
      (TransferActionWidget.mk 0 0 100 (-1) "%p%" "" "" QProgressBar.fresh)).2.2.1
        (by decide) (by decide) (by decide)).2.2.2.2.mpr rfl,
   ((progress_value_fits_range
      (managerOf [{ isArchived := false, state := TransferState.UnknownState,
                    bytesTotal := -1, bytesReceived := 0, target := "/home/user/a.iso" }])
      (TransferActionWidget.mk 0 0 100 (-1) "%p%" "" "" QProgressBar.fresh)).2.2.2.1
        (by decide) (by decide)).1,
   ((progress_value_fits_range
      (managerOf [{ isArchived := false, state := TransferState.RunningState,
                    bytesTotal := 0, bytesReceived := 7, target := "/home/user/a.iso" }])
      (TransferActionWidget.mk 0 0 100 (-1) "%p%" "" "" QProgressBar.fresh)).2.2.2.2
        (by decide) (by decide)).1⟩

/-! ## The tool-bar button and its menu -/

theorem updateState_menu (manager : TransfersManager) (widget : TransfersWidget) :
    (TransfersWidget.updateState manager widget).menu = widget.menu
    ∧ (TransfersWidget.updateState manager widget).icon = widget.m_icon
    ∧ (TransfersWidget.updateState manager widget).m_icon = widget.m_icon
    ∧ (TransfersWidget.updateState manager widget).menuVisible = widget.menuVisible :=
  ⟨rfl, rfl, rfl, rfl⟩

theorem populateMenuLoop_eq (manager : TransfersManager) (transfers : List TransferPtr)
    (menu : List QAction) :
    TransfersWidget.populateMenuLoop manager transfers menu
      = menu ++ (transfers.filter (isListed manager)).flatMap
          (fun transfer => [newWidgetAction manager transfer, QAction.separator]) := by
  induction transfers generalizing menu with
  | nil => simp [TransfersWidget.populateMenuLoop]
  | cons transfer rest ih =>
    unfold TransfersWidget.populateMenuLoop
    by_cases h : isListed manager transfer = true
    · simp [h, ih, QMenu.addAction, QMenu.addSeparator]
    · simp [h, ih]

theorem rowTransfers_append (front back : List QAction) :
    rowTransfers (front ++ back) = rowTransfers front ++ rowTransfers back := by
  induction front with
  | nil => rfl
  | cons action rest ih =>
    cases action <;> simp [rowTransfers, ih]

theorem rowTransfers_rows (manager : TransfersManager) (transfers : List TransferPtr) :
    rowTransfers (transfers.flatMap
        (fun transfer => [newWidgetAction manager transfer, QAction.separator]))
      = transfers := by
  induction transfers with
  | nil => rfl
  | cons transfer rest ih =>
    simp only [List.flatMap_cons, List.cons_append, List.nil_append]
    simp [newWidgetAction, rowTransfers, TransferActionWidget.getTransfer, new_m_transfer]
    simpa [newWidgetAction] using ih

/-- C2: run on an empty menu, `populateMenu` builds, for each transfer of the manager that is
not archived or is running, in the manager's order and once each, a row followed by a
separator, and then the one `Show all Downloads` action: 2k+1 actions for k such
transfers, and no row for an archived transfer that is not running. -/
theorem populateMenu_on_empty_menu (manager : TransfersManager) (widget : TransfersWidget)
    (hEmpty : widget.menu = []) :
    (TransfersWidget.populateMenu manager widget).menu
        = (manager.transfers.filter (fun transfer =>
              !(manager.deref transfer).isArchived
                || (manager.deref transfer).state == TransferState.RunningState)).flatMap
            (fun transfer =>
              [QAction.widgetAction (TransferActionWidget.new manager transfer),
               QAction.separator])
          ++ [QAction.transfersAction "Show all Downloads"]
    ∧ (TransfersWidget.populateMenu manager widget).menu.length
        = 2 * (manager.transfers.filter (fun transfer =>
              !(manager.deref transfer).isArchived
                || (manager.deref transfer).state == TransferState.RunningState)).length + 1
    ∧ rowTransfers (TransfersWidget.populateMenu manager widget).menu
        = manager.transfers.filter (fun transfer =>
              !(manager.deref transfer).isArchived
                || (manager.deref transfer).state == TransferState.RunningState)
    ∧ (∀ transfer, (manager.deref transfer).isArchived = true →
        (manager.deref transfer).state ≠ TransferState.RunningState →
          transfer ∉ rowTransfers (TransfersWidget.populateMenu manager widget).menu) := by
  have hmenu : (TransfersWidget.populateMenu manager widget).menu
      = (manager.transfers.filter (isListed manager)).flatMap
          (fun transfer => [newWidgetAction manager transfer, QAction.separator])
        ++ [showAllDownloads] := by
    simp [TransfersWidget.populateMenu, populateMenuLoop_eq, hEmpty, QMenu.addAction]
  have hrows : rowTransfers (TransfersWidget.populateMenu manager widget).menu
      = manager.transfers.filter (isListed manager) := by
    rw [hmenu, rowTransfers_append, rowTransfers_rows]
    simp [showAllDownloads, rowTransfers]
  refine ⟨hmenu, ?_, hrows, ?_⟩
  · rw [hmenu]
    have hlen : ∀ transfers : List TransferPtr,
        (transfers.flatMap
          (fun transfer => [newWidgetAction manager transfer, QAction.separator])).length
          = 2 * transfers.length := by
      intro transfers
      induction transfers with
      | nil => rfl
      | cons transfer rest ih =>
        simp only [List.flatMap_cons, List.length_append, List.length_cons, List.length_nil, ih]
        omega
    rw [List.length_append, hlen]
    rfl
  · intro transfer hArchived hState
    rw [hrows]
    intro hmem
    have := (List.mem_filter.mp hmem).2
    simp [isListed, hArchived, hState] at this

/-- Three transfers, the second archived and finished: the menu built for them has the
rows of the first and the third. -/
theorem populateMenu_on_empty_menu_witness :
    rowTransfers
        (TransfersWidget.populateMenu
          (managerOf
            [{ isArchived := false, state := TransferState.FinishedState,
               bytesTotal := 10, bytesReceived := 10, target := "/home/user/a.iso" },
             { isArchived := true, state := TransferState.FinishedState,
               bytesTotal := 10, bytesReceived := 10, target := "/home/user/b.iso" },
             { isArchived := true, state := TransferState.RunningState,
               bytesTotal := 0, bytesReceived := 3, target := "/home/user/c.iso" }])
          { m_icon := "transfers", icon := "transfers", toolTip := "Downloads",
            menu := [], menuVisible := false }).menu
      = [0, 2] :=
  (populateMenu_on_empty_menu
    (managerOf
      [{ isArchived := false, state := TransferState.FinishedState,
         bytesTotal := 10, bytesReceived := 10, target := "/home/user/a.iso" },
       { isArchived := true, state := TransferState.FinishedState,
         bytesTotal := 10, bytesReceived := 10, target := "/home/user/b.iso" },
       { isArchived := true, state := TransferState.RunningState,
         bytesTotal := 0, bytesReceived := 3, target := "/home/user/c.iso" }])
    { m_icon := "transfers", icon := "transfers", toolTip := "Downloads",
      menu := [], menuVisible := false }
    rfl).2.2.1.trans (by decide)

theorem transferStarted_menu (manager : TransfersManager) (widget : TransfersWidget)
    (transfer : TransferPtr) :
    (TransfersWidget.transferStarted manager widget transfer).menu
      = (if isListed manager transfer = true ∧ widget.menuVisible = true
          then newWidgetAction manager transfer :: QAction.separator :: widget.menu
          else widget.menu) := by
  unfold TransfersWidget.transferStarted
  rw [(updateState_menu manager _).1]
  by_cases h : isListed manager transfer = true ∧ widget.menuVisible = true
  · rw [if_pos h]
    obtain ⟨h1, h2⟩ := h
    cases hm : widget.menu with
    | nil =>
      simp [h1, h2, hm, QMenu.value, QMenu.insertAction, QMenu.insertSeparator]
    | cons first rest =>
      simp [h1, h2, hm, QMenu.value, QMenu.insertAction, QMenu.insertSeparator, QMenu.insertAt]
  · rw [if_neg h]
    have h3 : (isListed manager transfer && widget.menuVisible) = false := by
      cases h1 : isListed manager transfer <;> cases h2 : widget.menuVisible <;> simp_all
    simp [h3]

/-- C9: the `transferStarted` handler puts a row for the started transfer and then a
separator on top of the menu when the menu is visible and the transfer is not archived or is
running, every former action staying in place below them; otherwise it leaves the menu as it
is; in both cases it ends with `updateState`, which sets the icon anew. -/
theorem transferStarted_effect (manager : TransfersManager) (widget : TransfersWidget)
    (transfer : TransferPtr) :
    (widget.menuVisible = true →
      ((manager.deref transfer).isArchived = false
        ∨ (manager.deref transfer).state = TransferState.RunningState) →
        (TransfersWidget.transferStarted manager widget transfer).menu
          = [QAction.widgetAction (TransferActionWidget.new manager transfer),
             QAction.separator] ++ widget.menu)
    ∧ ((widget.menuVisible = false
        ∨ ((manager.deref transfer).isArchived = true
            ∧ (manager.deref transfer).state ≠ TransferState.RunningState)) →
        (TransfersWidget.transferStarted manager widget transfer).menu = widget.menu)
    ∧ widget.menu <:+ (TransfersWidget.transferStarted manager widget transfer).menu
    ∧ TransfersWidget.transferStarted manager widget transfer
        = TransfersWidget.updateState manager
            { widget with
              menu := (TransfersWidget.transferStarted manager widget transfer).menu }
    ∧ (TransfersWidget.transferStarted manager widget transfer).icon
        = (TransfersWidget.transferStarted manager widget transfer).getIcon := by
  have hmenu := transferStarted_menu manager widget transfer
  refine ⟨?_, ?_, ?_, ?_, ?_⟩
  · intro hVisible hListed
    rw [hmenu, if_pos]
    · rfl
    · refine ⟨?_, hVisible⟩
      rcases hListed with h | h <;> simp [isListed, h]
  · intro h
    rw [hmenu, if_neg]
    rintro ⟨h1, h2⟩
    rcases h with h | ⟨h3, h4⟩
    · simp [h] at h2
    · simp [isListed, h3, h4] at h1
  · rw [hmenu]
    split
    · exact ⟨[newWidgetAction manager transfer, QAction.separator], rfl⟩
    · exact List.suffix_refl _
  · unfold TransfersWidget.transferStarted
    split <;> rfl
  · unfold TransfersWidget.transferStarted
    split <;> rfl

/-- A running transfer started while the menu shows `Show all Downloads` only, and an
archived finished one, which changes nothing. -/
theorem transferStarted_effect_witness :
    (TransfersWidget.transferStarted
        (managerOf [{ isArchived := true, state := TransferState.RunningState,
                      bytesTotal := 0, bytesReceived := 3, target := "/home/user/c.iso" }])
        { m_icon := "transfers", icon := "transfers", toolTip := "Downloads",
          menu := [showAllDownloads], menuVisible := true } 0).menu.length = 3
    ∧ (TransfersWidget.transferStarted
        (managerOf [{ isArchived := true, state := TransferState.FinishedState,
                      bytesTotal := 10, bytesReceived := 10, target := "/home/user/b.iso" }])
        { m_icon := "transfers", icon := "transfers", toolTip := "Downloads",
          menu := [showAllDownloads], menuVisible := true } 0).menu
        = [showAllDownloads] :=
  ⟨congrArg List.length
      ((transferStarted_effect
        (managerOf [{ isArchived := true, state := TransferState.RunningState,
                      bytesTotal := 0, bytesReceived := 3, target := "/home/user/c.iso" }])
        { m_icon := "transfers", icon := "transfers", toolTip := "Downloads",
          menu := [showAllDownloads], menuVisible := true } 0).1 rfl (Or.inr rfl)),
   (transferStarted_effect
      (managerOf [{ isArchived := true, state := TransferState.FinishedState,
                    bytesTotal := 10, bytesReceived := 10, target := "/home/user/b.iso" }])
      { m_icon := "transfers", icon := "transfers", toolTip := "Downloads",
        menu := [showAllDownloads], menuVisible := true } 0).2.1
      (Or.inr ⟨rfl, by decide⟩)⟩

/-- C3, the code at the failing input: with no transfer at all and with one running
transfer that has 50 of 100 bytes the sums computed by `updateState` differ, and the icon
set on the button is the same, `transfers`; it is the same for any two managers. -/
theorem updateState_icon_ignores_activity :
    TransfersWidget.updateStateLoop (managerOf []) (managerOf []).transfers (0, 0, 0)
        = (0, 0, 0)
    ∧ TransfersWidget.updateStateLoop
        (managerOf [{ isArchived := false, state := TransferState.RunningState,
                      bytesTotal := 100, bytesReceived := 50, target := "/home/user/a.iso" }])
        (managerOf [{ isArchived := false, state := TransferState.RunningState,
                      bytesTotal := 100, bytesReceived := 50, target := "/home/user/a.iso" }]).transfers
        (0, 0, 0)
        = (100, 50, 1)
    ∧ (TransfersWidget.updateState (managerOf [])
        (TransfersWidget.new (managerOf []))).icon = "transfers"
    ∧ (TransfersWidget.updateState
        (managerOf [{ isArchived := false, state := TransferState.RunningState,
                      bytesTotal := 100, bytesReceived := 50, target := "/home/user/a.iso" }])
        (TransfersWidget.new (managerOf []))).icon = "transfers"
    ∧ (∀ (manager other : TransfersManager) (widget : TransfersWidget),
        (TransfersWidget.updateState manager widget).icon
          = (TransfersWidget.updateState other widget).icon) :=
  ⟨by decide, by decide, rfl, rfl, fun _ _ _ => rfl⟩

/-- C6, the code at the failing input: the menu is opened while the one transfer of the
manager, not archived, is running, and shows its row; the transfer finishes and stays in
the manager's list, not archived; the `transferFinished` handler takes its row out of the
menu, while `populateMenu` run on the same transfers builds a row for it. -/
theorem transferFinished_drops_row_of_listed_transfer :
    rowTransfers
        (TransfersWidget.showMenu
          (managerOf [{ isArchived := false, state := TransferState.RunningState,
                        bytesTotal := 0, bytesReceived := 3, target := "/home/user/a.iso" }])
          (TransfersWidget.new
            (managerOf [{ isArchived := false, state := TransferState.RunningState,
                          bytesTotal := 0, bytesReceived := 3,
                          target := "/home/user/a.iso" }]))).menu
        = [0]
    ∧ (TransfersWidget.transferFinished
        (managerOf [{ isArchived := false, state := TransferState.FinishedState,
                      bytesTotal := 3, bytesReceived := 3, target := "/home/user/a.iso" }])
        (TransfersWidget.showMenu
          (managerOf [{ isArchived := false, state := TransferState.RunningState,
                        bytesTotal := 0, bytesReceived := 3, target := "/home/user/a.iso" }])
          (TransfersWidget.new
            (managerOf [{ isArchived := false, state := TransferState.RunningState,
                          bytesTotal := 0, bytesReceived := 3,
                          target := "/home/user/a.iso" }])))
        0).menu
        = [showAllDownloads]
    ∧ (managerOf [{ isArchived := false, state := TransferState.FinishedState,
                    bytesTotal := 3, bytesReceived := 3,
                    target := "/home/user/a.iso" }]).transfers.filter
          (isListed
            (managerOf [{ isArchived := false, state := TransferState.FinishedState,
                          bytesTotal := 3, bytesReceived := 3, target := "/home/user/a.iso" }]))
        = [0]
    ∧ rowTransfers
        (TransfersWidget.populateMenu
          (managerOf [{ isArchived := false, state := TransferState.FinishedState,
                        bytesTotal := 3, bytesReceived := 3, target := "/home/user/a.iso" }])
          (TransfersWidget.hideMenu
            (TransfersWidget.new
              (managerOf [{ isArchived := false, state := TransferState.FinishedState,
                            bytesTotal := 3, bytesReceived := 3,
                            target := "/home/user/a.iso" }])))).menu
        = [0] :=
  ⟨by decide, by decide, by decide, by decide⟩

/-! ## The shape of the menu -/

theorem rowsHaveSeparator_cons (action : QAction) (rest : List QAction) :
    RowsHaveSeparator (action :: rest)
      ↔ (action.isWidgetAction = true → rest.head? = some QAction.separator)
        ∧ RowsHaveSeparator rest := by
  unfold RowsHaveSeparator
  constructor
  · intro h
    refine ⟨?_, ?_⟩
    · intro ha
      have := h 0 (by simp) ha
      cases rest with
      | nil => simp at this
      | cons first tail => simpa using this
    · intro i hi hrow
      have := h (i + 1) (by simpa using hi) (by simpa using hrow)
      simpa using this
  · rintro ⟨h0, hrest⟩ i hi hrow
    cases i with
    | zero =>
      have := h0 (by simpa using hrow)
      cases rest with
      | nil => simp at this
      | cons first tail => simpa using this
    | succ j =>
      have hj : j < rest.length := by simpa using hi
      have := hrest j hj (by simpa using hrow)
      simpa using this

theorem rowsHaveSeparator_nil : RowsHaveSeparator [] := by
  intro i hi
  simp at hi

theorem menuShape_rows (manager : TransfersManager) (transfers : List TransferPtr)
    (tail : List QAction) (hTail : RowsHaveSeparator tail) :
    RowsHaveSeparator
      (transfers.flatMap
          (fun transfer => [newWidgetAction manager transfer, QAction.separator]) ++ tail) := by
  induction transfers with
  | nil => simpa using hTail
  | cons transfer rest ih =>
    simp only [List.flatMap_cons, List.cons_append, List.nil_append, List.append_assoc]
    rw [rowsHaveSeparator_cons, rowsHaveSeparator_cons]
    exact ⟨fun _ => rfl, fun h => by simp [QAction.isWidgetAction] at h, ih⟩

theorem transferFinishedLoop_none (transfer : TransferPtr) (actions : List QAction) (i : Nat)
    (h : TransfersWidget.transferFinishedLoop transfer actions i = none) :
    withoutFirstRowOf transfer actions = actions := by
  induction actions generalizing i with
  | nil => rfl
  | cons action rest ih =>
    unfold TransfersWidget.transferFinishedLoop at h
    unfold withoutFirstRowOf
    by_cases hrow : isWidgetActionOf transfer action = true
    · simp [hrow] at h
    · simp only [hrow, if_false] at h ⊢
      rw [ih (i + 1) h]
      simp

theorem transferFinishedLoop_some (transfer : TransferPtr) (actions : List QAction)
    (i found : Nat)
    (h : TransfersWidget.transferFinishedLoop transfer actions i = some found) :
    ∃ k, found = i + k ∧ k < actions.length
      ∧ (actions.eraseIdx k).eraseIdx k = withoutFirstRowOf transfer actions := by
  induction actions generalizing i with
  | nil => simp [TransfersWidget.transferFinishedLoop] at h
  | cons action rest ih =>
    unfold TransfersWidget.transferFinishedLoop at h
    unfold withoutFirstRowOf
    by_cases hrow : isWidgetActionOf transfer action = true
    · simp only [hrow, if_true, Option.some.injEq] at h
      refine ⟨0, by omega, by simp, ?_⟩
      simp only [hrow, if_true, List.eraseIdx_cons_zero]
      cases rest <;> simp
    · simp only [hrow, if_false] at h
      obtain ⟨k, hk, hlt, herase⟩ := ih (i + 1) h
      refine ⟨k + 1, by omega, by simpa using hlt, ?_⟩
      simp [hrow, herase]

theorem transferFinished_menu (manager : TransfersManager) (widget : TransfersWidget)
    (transfer : TransferPtr) :
    (TransfersWidget.transferFinished manager widget transfer).menu
      = withoutFirstRowOf transfer widget.menu := by
  unfold TransfersWidget.transferFinished
  rw [(updateState_menu manager _).1]
  cases hloop : TransfersWidget.transferFinishedLoop transfer widget.menu 0 with
  | none =>
    simp only []
    exact (transferFinishedLoop_none transfer widget.menu 0 hloop).symm
  | some found =>
    obtain ⟨k, hk, hlt, herase⟩ := transferFinishedLoop_some transfer widget.menu 0 found hloop
    have hfound : found = k := by omega
    subst hfound
    simp only [QMenu.removeAction, QMenu.value]
    rw [← herase]
    by_cases hnext : found + 1 < widget.menu.length
    · simp [hnext]
    · simp only [hnext, if_false, Option.map_none']
      rw [List.eraseIdx_of_length_le (l := widget.menu.eraseIdx found)]
      rw [List.length_eraseIdx]
      split <;> omega

theorem isWidgetAction_of_isWidgetActionOf (transfer : TransferPtr) (action : QAction)
    (h : isWidgetActionOf transfer action = true) : action.isWidgetAction = true := by
  cases action <;> simp [isWidgetActionOf, QAction.isWidgetAction] at h ⊢

theorem withoutFirstRowOf_head (transfer : TransferPtr) (rest : List QAction)
    (h : rest.head? = some QAction.separator) :
    (withoutFirstRowOf transfer rest).head? = some QAction.separator := by
  cases rest with
  | nil => simp at h
  | cons first tail =>
    simp only [List.head?_cons, Option.some.injEq] at h
    subst h
    simp [withoutFirstRowOf, isWidgetActionOf]

theorem withoutFirstRowOf_rows (transfer : TransferPtr) (menu : List QAction)
    (h : RowsHaveSeparator menu) : RowsHaveSeparator (withoutFirstRowOf transfer menu) := by
  induction menu with
  | nil => exact h
  | cons action rest ih =>
    obtain ⟨hhead, hrest⟩ := (rowsHaveSeparator_cons action rest).mp h
    unfold withoutFirstRowOf
    by_cases hrow : isWidgetActionOf transfer action = true
    · rw [if_pos hrow]
      have hsep := hhead (isWidgetAction_of_isWidgetActionOf transfer action hrow)
      cases rest with
      | nil => simp at hsep
      | cons first tail =>
        simpa using ((rowsHaveSeparator_cons first tail).mp hrest).2
    · rw [if_neg hrow]
      rw [rowsHaveSeparator_cons]
      exact ⟨fun ha => withoutFirstRowOf_head transfer rest (hhead ha), ih hrest⟩

theorem withoutFirstRowOf_last (transfer : TransferPtr) (menu : List QAction)
    (h : RowsHaveSeparator menu) (hlast : menu.getLast? = some showAllDownloads) :
    (withoutFirstRowOf transfer menu).getLast? = some showAllDownloads := by
  induction menu with
  | nil => simp at hlast
  | cons action rest ih =>
    obtain ⟨hhead, hrest⟩ := (rowsHaveSeparator_cons action rest).mp h
    unfold withoutFirstRowOf
    by_cases hrow : isWidgetActionOf transfer action = true
    · rw [if_pos hrow]
      have hsep := hhead (isWidgetAction_of_isWidgetActionOf transfer action hrow)
      cases rest with
      | nil => simp at hsep
      | cons first tail =>
        simp only [List.head?_cons, Option.some.injEq] at hsep
        subst hsep
        cases tail with
        | nil => simp [showAllDownloads] at hlast
        | cons second others => simpa using hlast
    · rw [if_neg hrow]
      cases rest with
      | nil => simpa [withoutFirstRowOf] using hlast
      | cons first tail =>
        have hlast2 : (first :: tail).getLast? = some showAllDownloads := by
          simpa using hlast
        have := ih hrest hlast2
        rw [List.getLast?_cons, this]
        rfl

theorem not_mem_rowTransfers_cons (transfer : TransferPtr) (action : QAction)
    (rest : List QAction) :
    transfer ∉ rowTransfers (action :: rest)
      ↔ isWidgetActionOf transfer action = false ∧ transfer ∉ rowTransfers rest := by
  cases action with
  | widgetAction defaultWidget =>
    simp only [rowTransfers, isWidgetActionOf, List.mem_cons, not_or, decide_eq_false_iff_not]
    constructor
    · rintro ⟨h1, h2⟩
      exact ⟨fun h => h1 h.symm, h2⟩
    · rintro ⟨h1, h2⟩
      exact ⟨fun h => h1 h.symm, h2⟩
  | separator => simp [rowTransfers, isWidgetActionOf]
  | transfersAction text => simp [rowTransfers, isWidgetActionOf]

theorem withoutFirstRowOf_of_not_mem (transfer : TransferPtr) (menu : List QAction)
    (h : transfer ∉ rowTransfers menu) : withoutFirstRowOf transfer menu = menu := by
  induction menu with
  | nil => rfl
  | cons action rest ih =>
    obtain ⟨h1, h2⟩ := (not_mem_rowTransfers_cons transfer action rest).mp h
    simp [withoutFirstRowOf, h1, ih h2]

theorem withoutFirstRowOf_split (transfer : TransferPtr) (front back : List QAction)
    (defaultWidget : TransferActionWidget) (next : QAction)
    (hw : defaultWidget.getTransfer = transfer) (hfront : transfer ∉ rowTransfers front) :
    withoutFirstRowOf transfer (front ++ QAction.widgetAction defaultWidget :: next :: back)
      = front ++ back := by
  induction front with
  | nil => simp [withoutFirstRowOf, isWidgetActionOf, hw]
  | cons action rest ih =>
    obtain ⟨h1, h2⟩ := (not_mem_rowTransfers_cons transfer action rest).mp hfront
    simp [withoutFirstRowOf, h1, ih h2]

theorem withoutFirstRowOf_count (transfer : TransferPtr) (menu : List QAction)
    (kept : QAction) (h : RowsHaveSeparator menu)
    (hkept : isWidgetActionOf transfer kept = false) (hsep : kept ≠ QAction.separator) :
    (withoutFirstRowOf transfer menu).count kept = menu.count kept := by
  induction menu with
  | nil => rfl
  | cons action rest ih =>
    obtain ⟨hhead, hrest⟩ := (rowsHaveSeparator_cons action rest).mp h
    unfold withoutFirstRowOf
    by_cases hrow : isWidgetActionOf transfer action = true
    · rw [if_pos hrow]
      have hne : action ≠ kept := by
        intro heq
        rw [heq, hkept] at hrow
        exact Bool.false_ne_true hrow
      have hfirst := hhead (isWidgetAction_of_isWidgetActionOf transfer action hrow)
      cases rest with
      | nil => simp at hfirst
      | cons first tail =>
        simp only [List.head?_cons, Option.some.injEq] at hfirst
        subst hfirst
        rw [List.count_cons, List.count_cons]
        simp [hne, Ne.symm hsep]
    · rw [if_neg hrow]
      rw [List.count_cons, List.count_cons, ih hrest]

/-- C8: the menu that `populateMenu` builds from an empty menu has every row immediately
followed by a separator and `Show all Downloads` as its last action. On a menu of that
shape the `transferStarted` handler keeps the shape: it puts a row and a separator before
the former first action when the menu is visible and the transfer is not archived or is
running, and changes nothing otherwise. The `transferFinished` handler keeps the shape
too: it takes out the first row of the finished transfer with the action right after
it, changes nothing when the transfer has no row, and takes out neither
`Show all Downloads` nor the row of another transfer. -/
theorem menu_shape_is_kept (manager : TransfersManager) (widget : TransfersWidget)
    (transfer : TransferPtr) (hShape : MenuShape widget.menu) :
    (∀ closed : TransfersWidget, closed.menu = [] →
        MenuShape (TransfersWidget.populateMenu manager closed).menu)
    ∧ MenuShape (TransfersWidget.transferStarted manager widget transfer).menu
    ∧ (TransfersWidget.transferStarted manager widget transfer).menu
        = (if widget.menuVisible = true
              ∧ ((manager.deref transfer).isArchived = false
                  ∨ (manager.deref transfer).state = TransferState.RunningState)
            then QAction.widgetAction (TransferActionWidget.new manager transfer)
                  :: QAction.separator :: widget.menu
            else widget.menu)
    ∧ MenuShape (TransfersWidget.transferFinished manager widget transfer).menu
    ∧ (transfer ∉ rowTransfers widget.menu →
        (TransfersWidget.transferFinished manager widget transfer).menu = widget.menu)
    ∧ (∀ (front back : List QAction) (defaultWidget : TransferActionWidget) (next : QAction),
        widget.menu = front ++ QAction.widgetAction defaultWidget :: next :: back →
        defaultWidget.getTransfer = transfer → transfer ∉ rowTransfers front →
          (TransfersWidget.transferFinished manager widget transfer).menu = front ++ back)
    ∧ (TransfersWidget.transferFinished manager widget transfer).menu.count showAllDownloads
        = widget.menu.count showAllDownloads
    ∧ (∀ other : TransferActionWidget, other.getTransfer ≠ transfer →
        (TransfersWidget.transferFinished manager widget transfer).menu.count
            (QAction.widgetAction other)
          = widget.menu.count (QAction.widgetAction other)) := by
  obtain ⟨hRows, hLast⟩ := hShape
  have hStarted := transferStarted_menu manager widget transfer
  have hFinished := transferFinished_menu manager widget transfer
  refine ⟨?_, ?_, ?_, ?_, ?_, ?_, ?_, ?_⟩
  · intro closed hEmpty
    have hmenu : (TransfersWidget.populateMenu manager closed).menu
        = (manager.transfers.filter (isListed manager)).flatMap
            (fun transfer => [newWidgetAction manager transfer, QAction.separator])
          ++ [showAllDownloads] := by
      simp [TransfersWidget.populateMenu, populateMenuLoop_eq, hEmpty, QMenu.addAction]
    rw [hmenu]
    refine ⟨menuShape_rows manager _ _ ?_, List.getLast?_concat _⟩
    rw [rowsHaveSeparator_cons]
    exact ⟨fun h => by simp [showAllDownloads, QAction.isWidgetAction] at h,
      rowsHaveSeparator_nil⟩
  · rw [hStarted]
    split
    · refine ⟨?_, ?_⟩
      · rw [rowsHaveSeparator_cons, rowsHaveSeparator_cons]
        exact ⟨fun _ => rfl, fun h => by simp [QAction.isWidgetAction] at h, hRows⟩
      · cases hm : widget.menu with
        | nil => simp [hm] at hLast
        | cons first rest =>
          rw [hm] at hLast
          simpa using hLast
    · exact ⟨hRows, hLast⟩
  · rw [hStarted]
    by_cases hVisible : widget.menuVisible = true
    · by_cases hArchived : (manager.deref transfer).isArchived = true
      · by_cases hState : (manager.deref transfer).state = TransferState.RunningState
        · simp [isListed, hVisible, hArchived, hState, newWidgetAction]
        · simp [isListed, hVisible, hArchived, hState, newWidgetAction]
      · simp [isListed, hVisible, hArchived, newWidgetAction]
    · simp [hVisible]
  · rw [hFinished]
    exact ⟨withoutFirstRowOf_rows transfer _ hRows,
      withoutFirstRowOf_last transfer _ hRows hLast⟩
  · intro hNone
    rw [hFinished]
    exact withoutFirstRowOf_of_not_mem transfer _ hNone
  · intro front back defaultWidget next hSplit hw hFront
    rw [hFinished, hSplit]
    exact withoutFirstRowOf_split transfer front back defaultWidget next hw hFront
  · rw [hFinished]
    exact withoutFirstRowOf_count transfer _ _ hRows rfl (by decide)
  · intro other hOther
    rw [hFinished]
    refine withoutFirstRowOf_count transfer _ _ hRows ?_ (by simp)
    simpa [isWidgetActionOf] using hOther

/-- A menu with the rows of the transfers 0 and 1: when transfer 0 finishes, its row and
the separator below it go, and the row of transfer 1, its separator and
`Show all Downloads` stay. -/
theorem menu_shape_is_kept_witness :
    (TransfersWidget.transferFinished (managerOf [])
        { m_icon := "transfers", icon := "transfers", toolTip := "Downloads",
          menu := [QAction.widgetAction (TransferActionWidget.mk 0 0 0 (-1) "Unknown" "" "" QProgressBar.fresh),
                   QAction.separator,
                   QAction.widgetAction (TransferActionWidget.mk 1 0 0 (-1) "Unknown" "" "" QProgressBar.fresh),
                   QAction.separator,
                   showAllDownloads],
          menuVisible := true } 0).menu
      = [] ++ [QAction.widgetAction (TransferActionWidget.mk 1 0 0 (-1) "Unknown" "" "" QProgressBar.fresh),
               QAction.separator,
               showAllDownloads] :=
  (menu_shape_is_kept (managerOf [])
    { m_icon := "transfers", icon := "transfers", toolTip := "Downloads",
      menu := [QAction.widgetAction (TransferActionWidget.mk 0 0 0 (-1) "Unknown" "" "" QProgressBar.fresh),
               QAction.separator,
               QAction.widgetAction (TransferActionWidget.mk 1 0 0 (-1) "Unknown" "" "" QProgressBar.fresh),
               QAction.separator,
               showAllDownloads],
      menuVisible := true } 0 (by decide)).2.2.2.2.2.1
    [] [QAction.widgetAction (TransferActionWidget.mk 1 0 0 (-1) "Unknown" "" "" QProgressBar.fresh),
        QAction.separator, showAllDownloads]
    (TransferActionWidget.mk 0 0 0 (-1) "Unknown" "" "" QProgressBar.fresh) QAction.separator rfl rfl (by decide)

end Otter
